import Mathlib

/-!
Shallow embedding of the Tank Bank x402 facilitator's settlement core
(`src/routes/settle.ts`, both revisions of `settlePaymentRoute`;
`src/lib/solana-utils.ts`, here `SolanaUtils`; `src/routes/stats.ts`).
External collaborators (the Solana RPC, the ed25519 core, the nonce
database lookups) are passed in as explicit oracle values, mirroring the
awaited calls of the source; every route exit is a `res.json` response
captured as a structured value together with the trace of effects the
handler performed before responding.
-/

namespace TankBank

/-- Recipient entry of `splitPaymentData.recipients` as used by settle.ts:
`address`, `amount` (lamport / micro-unit integer), optional `description`. -/
structure Recipient where
  address : String
  amount : Nat
  description : Option String
deriving DecidableEq

/-- Split payment configuration attached to a nonce record
(`nonceDetails.splitPaymentData`). -/
structure SplitPaymentData where
  enabled : Bool
  totalAmount : Nat
  recipients : List Recipient
deriving DecidableEq

/-- Durable nonce record as read by `nonceDb.getNonceDetails` and consumed by
settle.ts: amount, recipient, expiry (ms epoch), the settlement signature
(null until settled) and the optional split spec. -/
structure NonceDetails where
  nonce : String
  amount : Nat
  recipient : String
  expiry : Nat
  transactionSignature : Option String
  splitPaymentData : Option SplitPaymentData
deriving DecidableEq

/-- Payload part of a deserialized PaymentRequest; settle.ts only reads
`payload.nonce` from it. -/
structure PaymentPayload where
  nonce : String
deriving DecidableEq

/-- Deserialized PaymentRequest: settle.ts reads `payload.nonce`,
`clientPublicKey` and the optional `signedTransaction`. -/
structure PaymentRequest where
  payload : PaymentPayload
  clientPublicKey : String
  signedTransaction : Option String
deriving DecidableEq

/-- Message of the `Amount mismatch` early return of settle.ts. -/
def amountMismatchMsg (expected received : Nat) : String :=
  "Amount mismatch. Expected: " ++ toString expected ++ ", Received: " ++ toString received

/-- Message of the `Invalid Tank Bank share` early return (first revision). -/
def tankShareMsg (expected received : Nat) : String :=
  "Invalid Tank Bank share. Expected 40% (" ++ toString expected ++ "), Received: " ++ toString received

/-- Message of the `Invalid creator share` early return (first revision). -/
def creatorShareMsg (expected received : Nat) : String :=
  "Invalid creator share. Expected 60% (" ++ toString expected ++ "), Received: " ++ toString received

/-- Message of the `Invalid Tank Bank fee` early return (second revision). -/
def tankFeeMsg (expected received : Nat) : String :=
  "Invalid Tank Bank fee. Expected: " ++ toString expected ++ ", Received: " ++ toString received

/-- Message of the insufficient-balance early return of settle.ts. -/
def insufficientMsg (required available : Nat) : String :=
  "Insufficient SOL balance. Required: " ++ toString required ++ ", Available: " ++ toString available

/-- Error thrown by settle.ts when the client did not attach a signed
transaction in real (non-simulated) mode. -/
def missingSignedTxMsg : String :=
  "Missing signed transaction. TRUE x402 requires client to sign the transaction for instant finality."

/-- Rethrow wrapper of the inner submit try/catch of settle.ts. -/
def submitFailMsg (cause : String) : String :=
  "Failed to submit sponsored transaction: " ++ cause

/-- Description string the first revision requires on the platform-fee
recipient. -/
def tankBankDescV1 : String := "Tank Bank platform fee (40%)"

/-- Description string the second revision requires on the platform-fee
recipient. -/
def tankBankDescV2 : String := "Tank Bank processing fee"

/-- Default of `parseInt(process.env.TANK_BANK_FEE_USDC || '12500')` in the
second revision. -/
def defaultTankBankFee : Nat := 12500

/-- Whether `pat` is an initial segment of `s` (on character lists). -/
def startsWithList : List Char → List Char → Bool
  | [], _ => true
  | _ :: _, [] => false
  | p :: ps, c :: cs => p == c && startsWithList ps cs

/-- Whether `pat` occurs as a contiguous segment of `s` (on character
lists). -/
def hasSubstrList (pat : List Char) : List Char → Bool
  | [] => startsWithList pat []
  | c :: cs => startsWithList pat (c :: cs) || hasSubstrList pat cs

/-- JS `s.includes(pat)` on strings: pat occurs as a substring of s. -/
def containsSubstr (s pat : String) : Bool := hasSubstrList pat.toList s.toList

/-- Predicate of the creator-recipient lookup of the first revision:
`recipient.description?.includes('Creator') || recipient.description?.includes('60%')`
(an absent description is falsy). -/
def isCreatorDesc : Option String → Bool
  | some s => containsSubstr s "Creator" || containsSubstr s "60%"
  | none => false

/-- Embeds `Math.floor(actualAmount * 0.4)` of the first revision. For the
integer amounts this route handles (lamports, far below 2^45) the IEEE-754
double computation agrees exactly with rational floor of 2*a/5: the stored
double of 0.4 exceeds 2/5 by a/(5*2^53) after scaling, which is under half an
ulp of the product, so the product rounds to the exact value whenever 2*a/5 is
an integer and never crosses the next integer otherwise. -/
def expectedTankBankShare (actualAmount : Nat) : Nat := 2 * actualAmount / 5

/-- Embeds `Math.floor(actualAmount * 0.6)`; exact on the same range by the
symmetric argument (the stored double of 0.6 is below 3/5 by under half an
ulp after scaling). -/
def expectedCreatorShare (actualAmount : Nat) : Nat := 3 * actualAmount / 5

/-- Split validation block of the FIRST revision of settle.ts (lines 62-114):
total must equal the nonce amount, a recipient described
`Tank Bank platform fee (40%)` must exist and hold 40% of the amount within
1 unit, and, when a creator-labelled recipient exists, it must hold 60%
within 1 unit. Returns the error message of the early return taken, or
`none` when validation passes. -/
def validateSplitV1 (d : NonceDetails) (spd : SplitPaymentData) : Option String :=
  let expectedTotal := spd.totalAmount
  let actualAmount := d.amount
  if actualAmount ≠ expectedTotal then
    some (amountMismatchMsg expectedTotal actualAmount)
  else
    match spd.recipients.find? (fun r => r.description == some tankBankDescV1) with
    | none => some "Tank Bank platform fee (40%) is required"
    | some tankBankRecipient =>
      let expectedShare := expectedTankBankShare actualAmount
      let actualShare := tankBankRecipient.amount
      if 1 < Nat.dist actualShare expectedShare then
        some (tankShareMsg expectedShare actualShare)
      else
        match spd.recipients.find? (fun r => isCreatorDesc r.description) with
        | some creatorRecipient =>
          let expectedCreator := expectedCreatorShare actualAmount
          let actualCreator := creatorRecipient.amount
          if 1 < Nat.dist actualCreator expectedCreator then
            some (creatorShareMsg expectedCreator actualCreator)
          else none
        | none => none

/-- Split validation block of the SECOND revision of settle.ts (lines
263-296): total must equal the nonce amount, a recipient described
`Tank Bank processing fee` must exist and hold exactly the configured fixed
fee (`TANK_BANK_FEE_USDC`, default 12500). -/
def validateSplitV2 (tankBankFee : Nat) (d : NonceDetails) (spd : SplitPaymentData) : Option String :=
  if d.amount ≠ spd.totalAmount then
    some (amountMismatchMsg spd.totalAmount d.amount)
  else
    match spd.recipients.find? (fun r => r.description == some tankBankDescV2) with
    | none => some "Tank Bank processing fee is required"
    | some tankBankRecipient =>
      if tankBankRecipient.amount ≠ tankBankFee then
        some (tankFeeMsg tankBankFee tankBankRecipient.amount)
      else none

/-- Sum of the per-recipient amounts of a split spec. -/
def sumAmounts (rs : List Recipient) : Nat := (rs.map (fun r => r.amount)).sum

namespace SolanaUtils

/-- The ed25519 verification core of tweetnacl, abstracted: a total boolean
function of (message bytes, signature bytes, public key bytes). -/
def Ed25519 : Type := List Nat → List Nat → List Nat → Bool

/-- Base58 alphabet used by the bs58 package. -/
def base58Chars : List Char :=
  "123456789ABCDEFGHJKLMNPQRSTUVWXYZabcdefghijkmnopqrstuvwxyz".toList

/-- Digit value of a base58 character, `none` for characters outside the
alphabet (on which bs58.decode throws). -/
def b58Digit (c : Char) : Option Nat := base58Chars.findIdx? (fun x => x == c)

/-- Fuel-driven big-endian base-256 digit expansion; the fuel only bounds
the recursion depth (`n` itself always suffices, since dividing by 256
strictly decreases a positive number). -/
def natToBytesBEAux : Nat → Nat → List Nat
  | 0, _ => []
  | _ + 1, 0 => []
  | fuel + 1, n + 1 => natToBytesBEAux fuel ((n + 1) / 256) ++ [(n + 1) % 256]

/-- Big-endian base-256 digits of a natural number (empty for 0). -/
def natToBytesBE (n : Nat) : List Nat := natToBytesBEAux n n

/-- Model of `bs58.decode`: `none` when any character falls outside the
alphabet (the throw settle's caller catches), otherwise the decoded bytes —
one zero byte per leading '1' followed by the base-256 digits of the base-58
value. -/
def bs58Decode (s : String) : Option (List Nat) :=
  let cs := s.toList
  if cs.all (fun c => (b58Digit c).isSome) then
    let n := cs.foldl (fun acc c => acc * 58 + (b58Digit c).getD 0) 0
    let zeros := (cs.takeWhile (fun c => c == '1')).length
    some (List.replicate zeros 0 ++ natToBytesBE n)
  else none

/-- Model of `nacl.sign.detached.verify`: throws (Except.error) on a
signature not 64 bytes long or a public key not 32 bytes long, otherwise
defers to the ed25519 core. -/
def naclVerify (ed : Ed25519) (msg sig pk : List Nat) : Except String Bool :=
  if sig.length ≠ 64 then Except.error "bad signature size"
  else if pk.length ≠ 32 then Except.error "bad public key size"
  else Except.ok (ed msg sig pk)

/-- SolanaUtils.verifySignature: UTF-8-encodes the message (opaque to the
ed25519 core, modelled as codepoints), base58-decodes signature and key, and
runs detached verification; every throw inside the try block (decode failure,
bad sizes) is caught and returned as `false`. -/
def verifySignature (ed : Ed25519) (message signature publicKey : String) : Bool :=
  let messageBytes := message.toList.map Char.toNat
  match bs58Decode signature, bs58Decode publicKey with
  | some sigBytes, some pkBytes =>
    match naclVerify ed messageBytes sigBytes pkBytes with
    | Except.ok b => b
    | Except.error _ => false
  | some _, none => false
  | none, _ => false

/-- SolanaUtils.getSOLBalance: parses the address (`addrValid` models
`address(publicKey)` succeeding) and queries the RPC (`rpcBalance`); any
throw — parse failure or RPC rejection — is caught and 0 is returned. -/
def getSOLBalance (addrValid : String → Bool) (rpcBalance : String → Except String Nat)
    (publicKey : String) : Nat :=
  if addrValid publicKey then
    match rpcBalance publicKey with
    | Except.ok v => v
    | Except.error _ => 0
  else 0

end SolanaUtils

/-- Observable side effects the settle handler performs (in order) before
responding: the nonce lookup, balance queries, the ledger submission attempt,
the signature write (`updateTransactionSignature`) and the audit append
(`storeTransaction`). -/
inductive Effect where
  | getNonce (nonce : String)
  | balanceQuery (publicKey : String)
  | submitTx
  | updateSignature (nonce sig : String)
  | storeTx (nonce : String) (sig : Option String) (status : String) (errMsg : Option String)
deriving DecidableEq

/-- Response body of a settle exit: every `res.json` of the route carries
either `status:'settled'` with a transaction signature or `status:'error'`
with a message. -/
inductive SettleBody where
  | settled (txSig : String)
  | errorBody (msg : String)
deriving DecidableEq

/-- Value of the `status` field of the serialized body. -/
def SettleBody.statusField : SettleBody → String
  | .settled _ => "settled"
  | .errorBody _ => "error"

/-- Which control path produced the response: a plain `return res.json`
before any throw (earlyReturn), the catch block (caught), or the success
path (success). -/
inductive ExitKind where
  | success
  | earlyReturn
  | caught
deriving DecidableEq

/-- Full outcome of one settle call: the HTTP status (`res.json` always
responds 200 on this route), the body, the control path taken, and the
effects performed before the response was returned, in order. -/
structure SettleResult where
  httpStatus : Nat
  body : SettleBody
  exitKind : ExitKind
  effects : List Effect
deriving DecidableEq

/-- Early-return exit of the route: a 200 response with an error body,
reached without throwing, so the catch block appends no audit record. -/
def earlyPath (msg : String) (effs : List Effect) : SettleResult :=
  { httpStatus := 200, body := .errorBody msg, exitKind := .earlyReturn, effects := effs }

/-- Catch-block exit of the route with a non-null deserialized request: a
`failed` TransactionRecord is appended (storeTransaction) and a 200 error
response returned. The audit append itself is modelled total, per the spec:
recordAttempt never fails the caller's flow. -/
def catchPath (nonce : String) (msg : String) (effs : List Effect) : SettleResult :=
  { httpStatus := 200, body := .errorBody msg, exitKind := .caught
  , effects := effs ++ [.storeTx nonce none "failed" (some msg)] }

/-- Success tail of the route: `updateTransactionSignature` (which, as an
awaited database call, may reject into the catch block) followed by the
`confirmed` audit append and the `status:'settled'` response. -/
def settleFinish (nonce : String) (updateSig : Except String Unit) (sig : String)
    (effs : List Effect) : SettleResult :=
  match updateSig with
  | Except.error e => catchPath nonce e (effs ++ [.updateSignature nonce sig])
  | Except.ok _ =>
    { httpStatus := 200, body := .settled sig, exitKind := .success
    , effects := effs ++ [.updateSignature nonce sig, .storeTx nonce (some sig) "confirmed" none] }

/-- Request body of a settle call: the `paymentRequest` field may be absent,
fail `PaymentRequest.deserialize` (which throws into the catch block while
`paymentReq` is still null), or deserialize. -/
inductive SettleRequestBody where
  | missing
  | malformed (msg : String)
  | valid (pr : PaymentRequest)

/-- Environment of one settle call: the simulation toggle, the current time
(`Date.now()`), the RPC collaborators of SolanaUtils.getSOLBalance, the
result of `submitSponsoredTransaction`, and the simulated signature token the
handler would generate in simulation mode. -/
structure SettleEnv where
  simulateTransactions : Bool
  now : Nat
  addrValid : String → Bool
  rpcBalance : String → Except String Nat
  submit : Except String String
  simSig : String

/-- Split-payment gate of settle.ts: `nonceDetails.splitPaymentData?.enabled`
guards the validation block (`splitCheck` is the block of the revision under
consideration, validateSplitV1 or validateSplitV2). -/
def splitGate (splitCheck : NonceDetails → SplitPaymentData → Option String)
    (d : NonceDetails) : Option String :=
  match d.splitPaymentData with
  | some spd => if spd.enabled then splitCheck d spd else none
  | none => none

/-- The settle route handler (`settlePaymentRoute` of settle.ts), common to
both revisions up to the split validation block passed as `splitCheck`.
`lookup` is the awaited result of `nonceDb.getNonceDetails` and `updateSig`
that of `nonceDb.updateTransactionSignature`; a rejection of either lands in
the catch block. Mirrors the source exit for exit: missing body, deserialize
throw, nonce not found, already settled (transactionSignature non-null),
expired (`Date.now() > expiry`), split validation failure, insufficient
balance (real mode only), missing signed transaction throw (real mode),
submission failure throw, then the success tail. -/
def settlePaymentRoute (env : SettleEnv)
    (splitCheck : NonceDetails → SplitPaymentData → Option String)
    (lookup : Except String (Option NonceDetails))
    (updateSig : Except String Unit)
    (body : SettleRequestBody) : SettleResult :=
  match body with
  | .missing => earlyPath "Payment request is required" []
  | .malformed msg =>
    { httpStatus := 200, body := .errorBody msg, exitKind := .caught, effects := [] }
  | .valid pr =>
    let nonce := pr.payload.nonce
    match lookup with
    | Except.error e => catchPath nonce e [.getNonce nonce]
    | Except.ok none => earlyPath "Nonce not found - please verify payment first" [.getNonce nonce]
    | Except.ok (some d) =>
      if d.transactionSignature.isSome then
        earlyPath "Payment already settled" [.getNonce nonce]
      else if d.expiry < env.now then
        earlyPath "Nonce has expired" [.getNonce nonce]
      else
        match splitGate splitCheck d with
        | some msg => earlyPath msg [.getNonce nonce]
        | none =>
          if env.simulateTransactions then
            settleFinish nonce updateSig env.simSig [.getNonce nonce]
          else
            let bal := SolanaUtils.getSOLBalance env.addrValid env.rpcBalance pr.clientPublicKey
            let effs1 : List Effect := [.getNonce nonce, .balanceQuery pr.clientPublicKey]
            if bal < d.amount then
              earlyPath (insufficientMsg d.amount bal) effs1
            else
              match pr.signedTransaction with
              | none => catchPath nonce missingSignedTxMsg effs1
              | some _ =>
                match env.submit with
                | Except.error e => catchPath nonce (submitFailMsg e) (effs1 ++ [.submitTx])
                | Except.ok sig =>
                  settleFinish nonce updateSig sig
                    (effs1 ++ [.submitTx, .balanceQuery d.recipient])

/-- Boolean recognizer of audit-log appends in an effect trace. -/
def isAuditWrite : Effect → Bool
  | .storeTx _ _ _ _ => true
  | _ => false

/-- Number of TransactionRecords appended during one settle call. -/
def auditWrites (effs : List Effect) : Nat := (effs.filter isAuditWrite).length

/-- Stats route (`getStatsRoute` of stats.ts): a successful
`getNonceStats` answer is returned as 200 with a data envelope, a rejection
as 500 with an error envelope. The stats payload type is opaque to the
route. -/
inductive StatsBody (α : Type) where
  | data (s : α)
  | failure (msg : String)

/-- Handler of GET /stats, returning (HTTP status, body). -/
def getStatsRoute {α : Type} (statsResult : Except String α) : Nat × StatsBody α :=
  match statsResult with
  | Except.ok s => (200, .data s)
  | Except.error e => (500, .failure e)

/-- Phase of one in-flight settle call between its awaited suspension points
(node's event loop interleaves tasks exactly at awaits): `ready` = about to
await `getNonceDetails`; `validated` = all pre-submission checks passed on
the value read, about to await `submitSponsoredTransaction`; `submitted` =
submission confirmed, about to await `updateTransactionSignature`;
`responded` = `res.json` called. -/
inductive Phase where
  | ready
  | validated
  | submitted (sig : String)
  | responded (body : SettleBody)
deriving DecidableEq

/-- Pure pre-submission guard sequence of settle.ts applied to the nonce
record value read from the database: already settled, expired, split
validation, then the real-mode balance check. Returns the error message of
the early return taken, `none` when the call may proceed to submission. -/
def settleGuards (splitCheck : NonceDetails → SplitPaymentData → Option String)
    (now balance : Nat) (rec : NonceDetails) : Option String :=
  if rec.transactionSignature.isSome then some "Payment already settled"
  else if rec.expiry < now then some "Nonce has expired"
  else
    match splitGate splitCheck rec with
    | some msg => some msg
    | none =>
      if balance < rec.amount then some (insufficientMsg rec.amount balance) else none

/-- One atomic step of a settle call in real mode against the shared nonce
record: reading the record and checking the guards, submitting the signed
transfer, then writing the transaction signature (the read-then-write pair
of settle.ts — the signature is claimed only AFTER submission). Returns the
next phase, the updated shared record, and the effects performed. -/
def settlePhaseStep (splitCheck : NonceDetails → SplitPaymentData → Option String)
    (now balance : Nat) (clientPk sig : String) (rec : NonceDetails)
    (ph : Phase) : Phase × NonceDetails × List Effect :=
  match ph with
  | .ready =>
    match settleGuards splitCheck now balance rec with
    | some msg => (.responded (.errorBody msg), rec, [.getNonce rec.nonce, .balanceQuery clientPk])
    | none => (.validated, rec, [.getNonce rec.nonce, .balanceQuery clientPk])
  | .validated => (.submitted sig, rec, [.submitTx])
  | .submitted s =>
    (.responded (.settled s), { rec with transactionSignature := some s },
     [.updateSignature rec.nonce s, .storeTx rec.nonce (some s) "confirmed" none])
  | .responded b => (.responded b, rec, [])

/-- Shared state of two concurrent settle calls for the same nonce: the
single database row both read and write, each call's phase, and the combined
effect trace. -/
structure ConcState where
  record : NonceDetails
  procA : Phase
  procB : Phase
  trace : List Effect
deriving DecidableEq

/-- Scheduler step: run one atomic step of call A (`useA = true`) or call B,
with per-call submission signatures `sigA`/`sigB`. -/
def concStep (splitCheck : NonceDetails → SplitPaymentData → Option String)
    (now balance : Nat) (clientPk sigA sigB : String)
    (st : ConcState) (useA : Bool) : ConcState :=
  if useA then
    let r := settlePhaseStep splitCheck now balance clientPk sigA st.record st.procA
    { record := r.2.1, procA := r.1, procB := st.procB, trace := st.trace ++ r.2.2 }
  else
    let r := settlePhaseStep splitCheck now balance clientPk sigB st.record st.procB
    { record := r.2.1, procA := st.procA, procB := r.1, trace := st.trace ++ r.2.2 }

/-- Run a whole interleaving schedule (list of scheduler choices). -/
def runSchedule (splitCheck : NonceDetails → SplitPaymentData → Option String)
    (now balance : Nat) (clientPk sigA sigB : String)
    (sched : List Bool) (st : ConcState) : ConcState :=
  sched.foldl (concStep splitCheck now balance clientPk sigA sigB) st

/-- Boolean recognizer of ledger submissions in an effect trace. -/
def isSubmit : Effect → Bool
  | .submitTx => true
  | _ => false

/-- Number of ledger submissions in an effect trace. -/
def submissions (effs : List Effect) : Nat := (effs.filter isSubmit).length

/-- Simulation-mode environment fixture (time 1; the RPC collaborators are
never consulted in this mode). -/
def envSim : SettleEnv :=
  { simulateTransactions := true, now := 1, addrValid := fun _ => false
  , rpcBalance := fun _ => Except.error "offline", submit := Except.error "unused"
  , simSig := "x402-demo-1-abc" }

/-- Real-mode environment fixture whose RPC reports a balance of 3 lamports
for every address. -/
def envLow : SettleEnv :=
  { simulateTransactions := false, now := 1, addrValid := fun _ => true
  , rpcBalance := fun _ => Except.ok 3, submit := Except.ok "txsig-real"
  , simSig := "unused" }

/-- PaymentRequest fixture carrying the given nonce. -/
def prOf (n : String) : PaymentRequest :=
  { payload := { nonce := n }, clientPublicKey := "client", signedTransaction := some "signedtx" }

/-- Platform-fee recipient fixture holding 40000 (40% of 100000). -/
def feeRec40000 : Recipient :=
  { address := "tank", amount := 40000, description := some tankBankDescV1 }

/-- Platform-fee recipient fixture holding 39000 (mismatched share). -/
def feeRec39000 : Recipient :=
  { address := "tank", amount := 39000, description := some tankBankDescV1 }

/-- Creator recipient fixture holding 60000 (60% of 100000). -/
def creatorRec : Recipient :=
  { address := "creator", amount := 60000, description := some "Creator share (60%)" }

/-- Well-formed 60/40 split fixture over 100000. -/
def spd4ok : SplitPaymentData :=
  { enabled := true, totalAmount := 100000, recipients := [feeRec40000, creatorRec] }

/-- Split fixture over 100000 whose platform-fee share is 39000. -/
def spd4bad : SplitPaymentData :=
  { enabled := true, totalAmount := 100000, recipients := [feeRec39000, creatorRec] }

/-- Nonce record fixture carrying the well-formed 60/40 split. -/
def d4ok : NonceDetails :=
  { nonce := "n4", amount := 100000, recipient := "merchant", expiry := 10
  , transactionSignature := none, splitPaymentData := some spd4ok }

/-- Nonce record fixture carrying the mismatched split. -/
def d4bad : NonceDetails :=
  { nonce := "n4", amount := 100000, recipient := "merchant", expiry := 10
  , transactionSignature := none, splitPaymentData := some spd4bad }

/-- Split fixture whose single recipient holds 40000 although the total is
100000: the per-recipient amounts do not sum to the total. -/
def spd3 : SplitPaymentData :=
  { enabled := true, totalAmount := 100000, recipients := [feeRec40000] }

/-- Nonce record fixture carrying the non-summing split. -/
def d3 : NonceDetails :=
  { nonce := "n3", amount := 100000, recipient := "merchant", expiry := 10
  , transactionSignature := none, splitPaymentData := some spd3 }

/-- Split fixture of the second revision: a fixed 12500 processing fee. -/
def spdB : SplitPaymentData :=
  { enabled := true, totalAmount := 100000
  , recipients := [{ address := "tank", amount := 12500, description := some tankBankDescV2 }] }

/-- Nonce record fixture carrying the fixed-fee split. -/
def dB : NonceDetails :=
  { nonce := "nB", amount := 100000, recipient := "merchant", expiry := 10
  , transactionSignature := none, splitPaymentData := some spdB }

end TankBank

namespace TankBank

/-- Claim C5: the two revisions of settlePaymentRoute apply divergent
fee-validation policies: the 60/40 percentage split of the first revision
accepts a spec that the fixed-fee second revision rejects, and the second
revision accepts a spec that the first rejects — the two validation
functions are not equivalent. -/
theorem c5_revisions_divergent :
    validateSplitV1 d3 spd3 = none ∧
    validateSplitV2 defaultTankBankFee d3 spd3 = some "Tank Bank processing fee is required" ∧
    validateSplitV2 defaultTankBankFee dB spdB = none ∧
    validateSplitV1 dB spdB = some "Tank Bank platform fee (40%) is required" := by
  decide

/-- Claim C4: the first-revision split validation accepts the
amount-100000 spec whose platform-fee recipient holds 40000 (40%), rejects
the same spec with fee amount 39000 with the fee-mismatch message, and in
general only passes when the platform-fee recipient's amount is within 1
unit of floor(totalAmount * 0.4) computed from the authoritative nonce
amount. -/
theorem c4_fee_share_tolerance :
    validateSplitV1 d4ok spd4ok = none ∧
    validateSplitV1 d4bad spd4bad = some (tankShareMsg 40000 39000) ∧
    (∀ (d : NonceDetails) (spd : SplitPaymentData) (r : Recipient),
      validateSplitV1 d spd = none →
      spd.recipients.find? (fun x => x.description == some tankBankDescV1) = some r →
      Nat.dist r.amount (expectedTankBankShare d.amount) ≤ 1) := by
  refine ⟨by decide, by decide, ?_⟩
  intro d spd r h hfind
  simp only [validateSplitV1] at h
  by_cases h1 : d.amount = spd.totalAmount
  · simp only [h1, ne_eq, not_true_eq_false, if_false, hfind] at h
    by_cases h2 : 1 < Nat.dist r.amount (expectedTankBankShare d.amount)
    · rw [if_pos] at h
      · exact absurd h (by simp)
      · simpa [h1] using h2
    · exact Nat.le_of_not_lt (by simpa [h1] using h2)
  · simp [h1] at h

/-- Claim C3 counterexample: a split spec whose single recipient holds
40000 although totalAmount is 100000 — the per-recipient amounts do not sum
to the total — passes the first-revision validation, and a /settle call for
its nonce proceeds all the way to a settled response (simulation mode). -/
theorem c3_counterexample_sum_unchecked :
    sumAmounts spd3.recipients ≠ spd3.totalAmount ∧
    validateSplitV1 d3 spd3 = none ∧
    (settlePaymentRoute envSim validateSplitV1 (Except.ok (some d3)) (Except.ok ())
      (SettleRequestBody.valid (prOf "n3"))).body = SettleBody.settled "x402-demo-1-abc" := by
  decide

/-- Claim C3 amended: for enabled split specs, the first-revision /settle
validation enforces that the nonce amount equals splitPaymentData.totalAmount
and that a platform-fee recipient exists whose amount is within 1 unit of
floor(totalAmount * 0.4); it does NOT enforce
sum(recipients[].amount) == totalAmount. -/
theorem c3_enforced_checks_amended :
    ∀ (d : NonceDetails) (spd : SplitPaymentData),
      validateSplitV1 d spd = none →
      d.amount = spd.totalAmount ∧
      ∃ r, spd.recipients.find? (fun x => x.description == some tankBankDescV1) = some r ∧
        Nat.dist r.amount (expectedTankBankShare d.amount) ≤ 1 := by
  intro d spd h
  simp only [validateSplitV1] at h
  by_cases h1 : d.amount = spd.totalAmount
  · refine ⟨h1, ?_⟩
    rcases hfind : spd.recipients.find? (fun x => x.description == some tankBankDescV1) with _ | r
    · simp only [h1, ne_eq, not_true_eq_false, if_false, hfind] at h
      exact Option.noConfusion h
    · refine ⟨r, hfind, ?_⟩
      simp only [h1, ne_eq, not_true_eq_false, if_false, hfind] at h
      by_cases h2 : 1 < Nat.dist r.amount (expectedTankBankShare d.amount)
      · rw [if_pos] at h
        · exact absurd h (by simp)
        · simpa [h1] using h2
      · exact Nat.le_of_not_lt (by simpa [h1] using h2)
  · simp [h1] at h

/-- Claim C3 witness for the amended theorem, at the well-formed 60/40
fixture. -/
theorem c3_amended_witness :
    d4ok.amount = spd4ok.totalAmount ∧
    ∃ r, spd4ok.recipients.find? (fun x => x.description == some tankBankDescV1) = some r ∧
      Nat.dist r.amount (expectedTankBankShare d4ok.amount) ≤ 1 :=
  c3_enforced_checks_amended d4ok spd4ok (by decide)

/-- Claim C4 witness: the tolerance bound of the general part, at the
well-formed 60/40 fixture. -/
theorem c4_witness :
    Nat.dist feeRec40000.amount (expectedTankBankShare d4ok.amount) ≤ 1 :=
  c4_fee_share_tolerance.2.2 d4ok spd4ok feeRec40000 (by decide) (by decide)

/-- Claim C1: exactly-once settlement fails on the code. Two concurrent
settle calls for the same valid nonce (amount 100, unexpired, unsettled,
sufficient balance), interleaved at the awaited suspension points as
check-A, check-B, submit-A, submit-B, write-A, write-B: both calls pass the
already-settled check (it reads the record before either submission), both
submit the transfer (two ledger submissions for one nonce), and both respond
status settled — because the signature is claimed by a read-then-write pair
after submission, not by a conditional update before it. Run sequentially
(call A to completion, then call B), the second call does observe the
already-settled error and only one submission happens. -/
theorem c1_concurrent_double_settlement :
    (runSchedule validateSplitV1 1 1000 "client" "sigA" "sigB"
        [true, false, true, false, true, false]
        { record := { nonce := "n1", amount := 100, recipient := "merchant", expiry := 1000
                    , transactionSignature := none, splitPaymentData := none }
        , procA := Phase.ready, procB := Phase.ready, trace := [] }).procA =
      Phase.responded (SettleBody.settled "sigA") ∧
    (runSchedule validateSplitV1 1 1000 "client" "sigA" "sigB"
        [true, false, true, false, true, false]
        { record := { nonce := "n1", amount := 100, recipient := "merchant", expiry := 1000
                    , transactionSignature := none, splitPaymentData := none }
        , procA := Phase.ready, procB := Phase.ready, trace := [] }).procB =
      Phase.responded (SettleBody.settled "sigB") ∧
    submissions (runSchedule validateSplitV1 1 1000 "client" "sigA" "sigB"
        [true, false, true, false, true, false]
        { record := { nonce := "n1", amount := 100, recipient := "merchant", expiry := 1000
                    , transactionSignature := none, splitPaymentData := none }
        , procA := Phase.ready, procB := Phase.ready, trace := [] }).trace = 2 ∧
    (runSchedule validateSplitV1 1 1000 "client" "sigA" "sigB"
        [true, true, true, false]
        { record := { nonce := "n1", amount := 100, recipient := "merchant", expiry := 1000
                    , transactionSignature := none, splitPaymentData := none }
        , procA := Phase.ready, procB := Phase.ready, trace := [] }).procB =
      Phase.responded (SettleBody.errorBody "Payment already settled") ∧
    submissions (runSchedule validateSplitV1 1 1000 "client" "sigA" "sigB"
        [true, true, true, false]
        { record := { nonce := "n1", amount := 100, recipient := "merchant", expiry := 1000
                    , transactionSignature := none, splitPaymentData := none }
        , procA := Phase.ready, procB := Phase.ready, trace := [] }).trace = 1 := by
  decide

/-- Claim C2 counterexample: a settle attempt whose PaymentRequest
deserializes but whose nonce is unknown returns the nonce-not-found error
without appending any TransactionRecord — the audit log does not receive one
entry per settlement attempt. -/
theorem c2_counterexample_no_audit_row :
    (settlePaymentRoute envSim validateSplitV1 (Except.ok none) (Except.ok ())
      (SettleRequestBody.valid (prOf "n2"))).body =
      SettleBody.errorBody "Nonce not found - please verify payment first" ∧
    auditWrites (settlePaymentRoute envSim validateSplitV1 (Except.ok none) (Except.ok ())
      (SettleRequestBody.valid (prOf "n2"))).effects = 0 := by
  decide

/-- Claim C2 amended: for a deserializable settle request, exactly one
TransactionRecord is appended before the response when the call ends on the
success path or in the catch block (nonce-database rejection, missing signed
transfer, submission failure, signature-write rejection); the early-return
domain failures (nonce not found, already settled, expired, amount or split
mismatch, insufficient balance) append none. -/
theorem c2_audit_per_exit_amended :
    ∀ (env : SettleEnv) (sc : NonceDetails → SplitPaymentData → Option String)
      (lookup : Except String (Option NonceDetails)) (upd : Except String Unit)
      (pr : PaymentRequest),
      ((settlePaymentRoute env sc lookup upd (SettleRequestBody.valid pr)).exitKind =
          ExitKind.success →
        auditWrites (settlePaymentRoute env sc lookup upd (SettleRequestBody.valid pr)).effects = 1) ∧
      ((settlePaymentRoute env sc lookup upd (SettleRequestBody.valid pr)).exitKind =
          ExitKind.caught →
        auditWrites (settlePaymentRoute env sc lookup upd (SettleRequestBody.valid pr)).effects = 1) ∧
      ((settlePaymentRoute env sc lookup upd (SettleRequestBody.valid pr)).exitKind =
          ExitKind.earlyReturn →
        auditWrites (settlePaymentRoute env sc lookup upd (SettleRequestBody.valid pr)).effects = 0) := by
  intro env sc lookup upd pr
  rcases lookup with e | od
  · simp [settlePaymentRoute, catchPath, auditWrites, isAuditWrite, List.filter]
  rcases od with _ | d
  · simp [settlePaymentRoute, earlyPath, auditWrites, isAuditWrite, List.filter]
  rcases upd with ue | uu <;>
  · simp only [settlePaymentRoute, settleFinish]
    repeat' split
    all_goals simp_all [earlyPath, catchPath, auditWrites, isAuditWrite, List.filter]

/-- Claim C2 witness for the amended theorem: the early-return case at the
nonce-not-found input appends no audit row. -/
theorem c2_amended_witness :
    auditWrites (settlePaymentRoute envSim validateSplitV1 (Except.ok none) (Except.ok ())
      (SettleRequestBody.valid (prOf "n2w"))).effects = 0 :=
  (c2_audit_per_exit_amended envSim validateSplitV1 (Except.ok none) (Except.ok ())
    (prOf "n2w")).2.2 (by decide)

/-- Claim C6 counterexample: a nonce whose expiry has passed but which
already carries a transaction signature is answered with the already-settled
error, not the expired-nonce error — the already-settled check precedes the
expiry check. -/
theorem c6_counterexample_settled_wins :
    ({ nonce := "n6", amount := 5, recipient := "r", expiry := 0
     , transactionSignature := some "earlier-sig", splitPaymentData := none } : NonceDetails).expiry
        < envSim.now ∧
    (settlePaymentRoute envSim validateSplitV1
      (Except.ok (some { nonce := "n6", amount := 5, recipient := "r", expiry := 0
                       , transactionSignature := some "earlier-sig", splitPaymentData := none }))
      (Except.ok ()) (SettleRequestBody.valid (prOf "n6"))).body =
      SettleBody.errorBody "Payment already settled" := by
  decide

/-- Claim C6 amended: for every nonce whose expiry has passed and which has
not already been settled (transactionSignature still null), /settle fails
with the expired-nonce error and performs no ledger submission. -/
theorem c6_expired_rejected_amended :
    ∀ (env : SettleEnv) (sc : NonceDetails → SplitPaymentData → Option String)
      (upd : Except String Unit) (pr : PaymentRequest) (d : NonceDetails),
      d.transactionSignature = none → d.expiry < env.now →
      (settlePaymentRoute env sc (Except.ok (some d)) upd (SettleRequestBody.valid pr)).body =
        SettleBody.errorBody "Nonce has expired" ∧
      Effect.submitTx ∉
        (settlePaymentRoute env sc (Except.ok (some d)) upd (SettleRequestBody.valid pr)).effects := by
  intro env sc upd pr d hsig hexp
  simp [settlePaymentRoute, hsig, hexp, earlyPath]

/-- Claim C6 witness for the amended theorem, at a concrete expired,
unsettled nonce. -/
theorem c6_amended_witness :
    (settlePaymentRoute envSim validateSplitV1
      (Except.ok (some { nonce := "n6w", amount := 5, recipient := "r", expiry := 0
                       , transactionSignature := none, splitPaymentData := none }))
      (Except.ok ()) (SettleRequestBody.valid (prOf "n6w"))).body =
      SettleBody.errorBody "Nonce has expired" ∧
    Effect.submitTx ∉
      (settlePaymentRoute envSim validateSplitV1
        (Except.ok (some { nonce := "n6w", amount := 5, recipient := "r", expiry := 0
                         , transactionSignature := none, splitPaymentData := none }))
        (Except.ok ()) (SettleRequestBody.valid (prOf "n6w"))).effects :=
  c6_expired_rejected_amended envSim validateSplitV1 (Except.ok ()) (prOf "n6w")
    { nonce := "n6w", amount := 5, recipient := "r", expiry := 0
    , transactionSignature := none, splitPaymentData := none } rfl (by decide)

/-- Claim C7: in real mode, on a live unsettled nonce the handler queries the
payer's balance before any submission and, when the available balance is
below the required amount, returns the insufficient-funds error naming both
amounts without ever submitting; in simulated mode no balance query is
performed at all. -/
theorem c7_balance_gate :
    ∀ (env : SettleEnv) (sc : NonceDetails → SplitPaymentData → Option String)
      (upd : Except String Unit) (pr : PaymentRequest) (d : NonceDetails),
      d.transactionSignature = none → ¬ d.expiry < env.now → splitGate sc d = none →
      ((env.simulateTransactions = false →
        SolanaUtils.getSOLBalance env.addrValid env.rpcBalance pr.clientPublicKey < d.amount →
        (settlePaymentRoute env sc (Except.ok (some d)) upd (SettleRequestBody.valid pr)).body =
          SettleBody.errorBody (insufficientMsg d.amount
            (SolanaUtils.getSOLBalance env.addrValid env.rpcBalance pr.clientPublicKey)) ∧
        Effect.submitTx ∉
          (settlePaymentRoute env sc (Except.ok (some d)) upd (SettleRequestBody.valid pr)).effects) ∧
      (env.simulateTransactions = true →
        ∀ pk, Effect.balanceQuery pk ∉
          (settlePaymentRoute env sc (Except.ok (some d)) upd (SettleRequestBody.valid pr)).effects)) := by
  intro env sc upd pr d hsig hexp hsplit
  constructor
  · intro hreal hbal
    simp [settlePaymentRoute, hsig, hexp, hsplit, hreal, hbal, earlyPath]
  · intro hsim pk
    rcases upd with ue | uu <;>
      simp [settlePaymentRoute, settleFinish, hsig, hexp, hsplit, hsim, catchPath]

/-- Claim C7 witness: real-mode environment reporting balance 3 against a
required amount of 10. -/
theorem c7_witness :
    (settlePaymentRoute envLow validateSplitV1
      (Except.ok (some { nonce := "n7", amount := 10, recipient := "r", expiry := 10
                       , transactionSignature := none, splitPaymentData := none }))
      (Except.ok ()) (SettleRequestBody.valid (prOf "n7"))).body =
      SettleBody.errorBody (insufficientMsg 10 3) ∧
    Effect.submitTx ∉
      (settlePaymentRoute envLow validateSplitV1
        (Except.ok (some { nonce := "n7", amount := 10, recipient := "r", expiry := 10
                         , transactionSignature := none, splitPaymentData := none }))
        (Except.ok ()) (SettleRequestBody.valid (prOf "n7"))).effects :=
  (c7_balance_gate envLow validateSplitV1 (Except.ok ()) (prOf "n7")
    { nonce := "n7", amount := 10, recipient := "r", expiry := 10
    , transactionSignature := none, splitPaymentData := none }
    rfl (by decide) rfl).1 rfl (by decide)

/-- Claim C8: SolanaUtils.verifySignature is a total deterministic boolean
function of its inputs — the same triple always yields the same boolean —
and every malformed input (a signature or key that fails base58 decoding, or
decodes to the wrong length for the nacl primitive, which throws inside the
try block) is caught and yields false, indistinguishable from a failed
verification. -/
theorem c8_verify_signature_total :
    ∀ (ed : SolanaUtils.Ed25519) (m s p : String),
      (SolanaUtils.verifySignature ed m s p = SolanaUtils.verifySignature ed m s p) ∧
      ((SolanaUtils.bs58Decode s).isNone ∨ (SolanaUtils.bs58Decode p).isNone →
        SolanaUtils.verifySignature ed m s p = false) ∧
      (∀ sigBytes pkBytes, SolanaUtils.bs58Decode s = some sigBytes →
        SolanaUtils.bs58Decode p = some pkBytes →
        (sigBytes.length ≠ 64 ∨ pkBytes.length ≠ 32) →
        SolanaUtils.verifySignature ed m s p = false) := by
  intro ed m s p
  refine ⟨rfl, ?_, ?_⟩
  · intro h
    rcases hs : SolanaUtils.bs58Decode s with _ | sb
    · simp [SolanaUtils.verifySignature, hs]
    rcases hp : SolanaUtils.bs58Decode p with _ | pb
    · simp [SolanaUtils.verifySignature, hs, hp]
    · simp [hs, hp] at h
  · intro sigBytes pkBytes hs hp hlen
    simp only [SolanaUtils.verifySignature, SolanaUtils.naclVerify, hs, hp]
    rcases hlen with h64 | h32
    · simp [h64]
    · by_cases h64 : sigBytes.length = 64 <;> simp [h64, h32]

/-- Claim C8 witness: the character 0 is outside the base58 alphabet, so the
decode fails and verification returns false. -/
theorem c8_witness :
    SolanaUtils.verifySignature (fun _ _ _ => true) "msg" "0" "0" = false :=
  (c8_verify_signature_total (fun _ _ _ => true) "msg" "0" "0").2.1 (Or.inl (by decide))

/-- Claim C9: the settle route answers every request with HTTP 200 and a
body whose status field is either settled or error, while the stats route
maps a nonce-database failure to HTTP 500 (and success to 200 with a data
envelope). -/
theorem c9_http_envelope :
    (∀ (env : SettleEnv) (sc : NonceDetails → SplitPaymentData → Option String)
       (lookup : Except String (Option NonceDetails)) (upd : Except String Unit)
       (body : SettleRequestBody),
       (settlePaymentRoute env sc lookup upd body).httpStatus = 200 ∧
       ((settlePaymentRoute env sc lookup upd body).body.statusField = "settled" ∨
        (settlePaymentRoute env sc lookup upd body).body.statusField = "error")) ∧
    (∀ (α : Type) (s : α), (@getStatsRoute α (Except.ok s)).1 = 200) ∧
    (∀ (α : Type) (e : String), (@getStatsRoute α (Except.error e)).1 = 500) := by
  refine ⟨?_, fun α s => rfl, fun α e => rfl⟩
  intro env sc lookup upd body
  have hb : ∀ b : SettleBody, b.statusField = "settled" ∨ b.statusField = "error" := by
    intro b
    cases b <;> simp [SettleBody.statusField]
  refine ⟨?_, hb _⟩
  rcases body with _ | msg | pr
  · rfl
  · rfl
  rcases lookup with e | od
  · rfl
  rcases od with _ | d
  · rfl
  rcases upd with ue | uu <;>
  · simp only [settlePaymentRoute, settleFinish]
    repeat' split
    all_goals simp [earlyPath, catchPath]

/-- Claim C10: SolanaUtils.getSOLBalance returns 0 on an address-parse
failure or an RPC rejection instead of throwing; consequently, in real mode
a positive required amount combined with a failing balance query makes
/settle take the insufficient-balance early return, reporting Available: 0
with HTTP 200, rather than surfacing a transient storage-style failure. -/
theorem c10_balance_failure_zero :
    (∀ (av : String → Bool) (rpc : String → Except String Nat) (pk e : String),
      rpc pk = Except.error e → SolanaUtils.getSOLBalance av rpc pk = 0) ∧
    (∀ (av : String → Bool) (rpc : String → Except String Nat) (pk : String),
      av pk = false → SolanaUtils.getSOLBalance av rpc pk = 0) ∧
    (∀ (env : SettleEnv) (sc : NonceDetails → SplitPaymentData → Option String)
       (upd : Except String Unit) (pr : PaymentRequest) (d : NonceDetails) (e : String),
      env.simulateTransactions = false →
      d.transactionSignature = none → ¬ d.expiry < env.now → splitGate sc d = none →
      env.rpcBalance pr.clientPublicKey = Except.error e →
      0 < d.amount →
      (settlePaymentRoute env sc (Except.ok (some d)) upd (SettleRequestBody.valid pr)).body =
        SettleBody.errorBody (insufficientMsg d.amount 0) ∧
      (settlePaymentRoute env sc (Except.ok (some d)) upd (SettleRequestBody.valid pr)).exitKind =
        ExitKind.earlyReturn ∧
      (settlePaymentRoute env sc (Except.ok (some d)) upd (SettleRequestBody.valid pr)).httpStatus =
        200) := by
  have hz : ∀ (av : String → Bool) (rpc : String → Except String Nat) (pk e : String),
      rpc pk = Except.error e → SolanaUtils.getSOLBalance av rpc pk = 0 := by
    intro av rpc pk e h
    by_cases hav : av pk = true <;> simp [SolanaUtils.getSOLBalance, hav, h]
  refine ⟨hz, ?_, ?_⟩
  · intro av rpc pk h
    simp [SolanaUtils.getSOLBalance, h]
  · intro env sc upd pr d e hreal hsig hexp hsplit hrpc hamt
    have h0 : SolanaUtils.getSOLBalance env.addrValid env.rpcBalance pr.clientPublicKey = 0 :=
      hz env.addrValid env.rpcBalance pr.clientPublicKey e hrpc
    simp [settlePaymentRoute, hsig, hexp, hsplit, hreal, h0, hamt, earlyPath]

/-- Claim C10 witness: a real-mode environment whose RPC rejects every
balance query, against a nonce requiring 10 lamports. -/
theorem c10_witness :
    (settlePaymentRoute
      { simulateTransactions := false, now := 1, addrValid := fun _ => true
      , rpcBalance := fun _ => Except.error "rpc down", submit := Except.ok "t"
      , simSig := "u" }
      validateSplitV1
      (Except.ok (some { nonce := "n10", amount := 10, recipient := "r", expiry := 10
                       , transactionSignature := none, splitPaymentData := none }))
      (Except.ok ()) (SettleRequestBody.valid (prOf "n10"))).body =
      SettleBody.errorBody (insufficientMsg 10 0) :=
  ((c10_balance_failure_zero.2.2
    { simulateTransactions := false, now := 1, addrValid := fun _ => true
    , rpcBalance := fun _ => Except.error "rpc down", submit := Except.ok "t"
    , simSig := "u" }
    validateSplitV1 (Except.ok ()) (prOf "n10")
    { nonce := "n10", amount := 10, recipient := "r", expiry := 10
    , transactionSignature := none, splitPaymentData := none }
    "rpc down" rfl rfl (by decide) rfl rfl (by decide))).1

end TankBank
